import Mathlib

/-!
Verification development for the meal_max catalog-and-contest application.

The Catalog Service lives in `meal_max/models/kitchen_model.py`; its SQLite
store is modelled as a list of rows (`Store`), SQL statements executed by an
operation are recorded in a trace (`SqlStmt`), and Python `ValueError` /
`sqlite3.Error` outcomes are modelled with the `KitchenError` sum type.
The Battle Engine (`battle_model.py`) is not part of the sources; only its
test suite is, so its operations are modelled from the specification,
pinned where possible by the values the repository tests assert.
-/

namespace MealMax

/-- Errors of the underlying SQLite layer (`sqlite3.IntegrityError` is a
subclass of `sqlite3.Error`; every other subclass is collapsed into
`operationalError`). -/
inductive SqliteError where
  | integrityError (msg : String)
  | operationalError (msg : String)
deriving Repr, DecidableEq

/-- The distinguishable error outcomes of the kitchen model.  Each
constructor stands for one distinct `ValueError` message (or, for
`sqlite`, a re-raised `sqlite3.Error`; for `typeError`, an uncaught
Python `TypeError`) in `kitchen_model.py`. -/
inductive KitchenError where
  /-- Python `ValueError`: price must be a positive value / number. -/
  | invalidPrice
  /-- Python `ValueError`: difficulty must be LOW, MED, or HIGH. -/
  | invalidDifficulty
  /-- Python `ValueError`: meal with the given ID not found. -/
  | notFound (id : Nat)
  /-- Python `ValueError`: meal with the given ID has been deleted. -/
  | alreadyDeleted (id : Nat)
  /-- Python `ValueError`: meal with the given name not found. -/
  | notFoundName (name : String)
  /-- Python `ValueError`: meal with the given name has been deleted. -/
  | alreadyDeletedName (name : String)
  /-- Python `ValueError`: invalid sort_by parameter. -/
  | invalidSortBy (sortBy : String)
  /-- Python `ValueError`: invalid result, expected wins or loss. -/
  | invalidResult (result : String)
  /-- Python `ValueError`: meal with the given name already exists. -/
  | duplicateName (name : String)
  /-- Python `ValueError`: the meal database is empty. -/
  | emptyDatabase
  /-- Python `ValueError`: two combatants must be prepped for a battle. -/
  | twoCombatantsRequired
  /-- Python `ValueError`: combatant list is full. -/
  | combatantListFull
  /-- An uncaught Python `TypeError`. -/
  | typeError
  /-- A re-raised `sqlite3.Error`. -/
  | sqlite (e : SqliteError)
deriving Repr, DecidableEq

/-- One row of the `meals` table.  Columns follow the schema used by
`kitchen_model.py` (id, meal, cuisine, price, difficulty, deleted,
battles, wins); `deleted` defaults to false and `battles`/`wins` default
to 0 on insert.  `price` (a Python float) is modelled as a rational. -/
structure MealRow where
  id : Nat
  meal : String
  cuisine : String
  price : ℚ
  difficulty : String
  deleted : Bool
  battles : Nat
  wins : Nat
deriving Repr, DecidableEq

/-- The database state: the rows of the `meals` table in insertion order. -/
abbrev Store := List MealRow

/-- The `Meal` dataclass of `kitchen_model.py` (fields `id`, `meal`,
`cuisine`, `price`, `difficulty`). -/
structure Meal where
  id : Nat
  meal : String
  cuisine : String
  price : ℚ
  difficulty : String
deriving Repr, DecidableEq

/-- The check `difficulty in [LOW, MED, HIGH]` as performed throughout the source. -/
def validDifficulty (d : String) : Bool :=
  d = "LOW" || d = "MED" || d = "HIGH"

/-- Source `Meal.__post_init__`: constructing a `Meal` raises `ValueError` when
`price < 0` (note: strictly negative, so a price of 0 passes) or when the
difficulty is not one of LOW, MED, HIGH. -/
def mkMeal (id : Nat) (meal cuisine : String) (price : ℚ) (difficulty : String) :
    Except KitchenError Meal :=
  if price < 0 then .error .invalidPrice
  else if ¬ validDifficulty difficulty then .error .invalidDifficulty
  else .ok ⟨id, meal, cuisine, price, difficulty⟩

/-- Query `SELECT ... FROM meals WHERE id = ?` followed by `fetchone`: the first
row whose id matches, if any. -/
def findById (s : Store) (id : Nat) : Option MealRow :=
  s.find? (fun r => r.id == id)

/-- Query `SELECT ... FROM meals WHERE meal = ?` followed by `fetchone`: the
first row whose name matches, if any. -/
def findByName (s : Store) (name : String) : Option MealRow :=
  s.find? (fun r => r.meal == name)

/-- Statement `UPDATE meals SET ... WHERE id = ?`: apply `g` to every row whose id
matches. -/
def updateWhere (id : Nat) (g : MealRow → MealRow) (s : Store) : Store :=
  s.map (fun r => if r.id == id then g r else r)

/-- The SQL statements (and the commit) a kitchen-model call can execute;
used to record which statements ran before an operation raised. -/
inductive SqlStmt where
  /-- Statement `SELECT deleted FROM meals WHERE id = ?` -/
  | selectDeleted (id : Nat)
  /-- Statement `INSERT INTO meals (meal, cuisine, price, difficulty) VALUES (?,?,?,?)` -/
  | insertMeal (meal cuisine : String) (price : ℚ) (difficulty : String)
  /-- Statement `UPDATE meals SET deleted = TRUE WHERE id = ?` -/
  | updateDeleted (id : Nat)
  /-- Statement `UPDATE meals SET wins = wins + 1, battles = battles + 1, ... WHERE id = ?` -/
  | updateStats (id : Nat)
  /-- Call `conn.commit()` -/
  | commit
deriving Repr, DecidableEq

/-- A Python value passed as the `price` argument of `create_meal`: either a
number (`isinstance(price, (int, float))` holds) or some non-numeric value
such as a string. -/
inductive PyNum where
  | num (q : ℚ)
  | nonNumeric
deriving Repr, DecidableEq

/-- The id storage assigns to a freshly inserted row (`id` is the
AUTOINCREMENT primary key of the `meals` table, so it is strictly larger
than every existing id). -/
def nextId (s : Store) : Nat :=
  (s.map (·.id)).foldr max 0 + 1

/-- Source `create_meal(meal, cuisine, price, difficulty)`:
validates that `price` is a positive number and that `difficulty` is one of
LOW, MED, HIGH before opening any connection (so the trace of executed
statements is empty on validation failure); then INSERTs the row.  The
UNIQUE constraint on meal names makes the insert raise
`sqlite3.IntegrityError`, which the except-clause turns into the
duplicate-name `ValueError`; any other `sqlite3.Error` (modelled by the
injected `fault`) is logged and re-raised unchanged.  The inserted row gets
a storage-assigned id and the column defaults `deleted = false`,
`battles = 0`, `wins = 0`. -/
def create_meal (s : Store) (meal cuisine : String) (price : PyNum) (difficulty : String)
    (fault : Option SqliteError) : List SqlStmt × Except KitchenError Store :=
  match price with
  | .nonNumeric => ([], .error .invalidPrice)
  | .num q =>
    if q ≤ 0 then ([], .error .invalidPrice)
    else if ¬ validDifficulty difficulty then ([], .error .invalidDifficulty)
    else
      match fault with
      | some (.integrityError _) =>
          ([.insertMeal meal cuisine q difficulty], .error (.duplicateName meal))
      | some e =>
          ([.insertMeal meal cuisine q difficulty], .error (.sqlite e))
      | none =>
          if s.any (fun r => r.meal == meal) then
            ([.insertMeal meal cuisine q difficulty], .error (.duplicateName meal))
          else
            ([.insertMeal meal cuisine q difficulty, .commit],
             .ok (s ++ [⟨nextId s, meal, cuisine, q, difficulty, false, 0, 0⟩]))

/-- Statement `UPDATE meals SET deleted = TRUE WHERE id = ?` applied to one row. -/
def setDeleted (r : MealRow) : MealRow := { r with deleted := true }

/-- Statement `UPDATE meals SET wins = wins + 1, battles = battles + 1 ... WHERE id = ?`
applied to one row.  (The source also assigns a `win_pct` column in the same
statement; the leaderboard query derives `win_pct` from `wins` and `battles`,
so no such stored column appears in the row model.) -/
def bumpStats (r : MealRow) : MealRow :=
  { r with wins := r.wins + 1, battles := r.battles + 1 }

/-- Source `delete_meal(meal_id)`: SELECTs the deletion flag; a missing row makes
`fetchone()[0]` raise `TypeError`, caught and turned into the not-found
`ValueError`; a set flag raises the has-been-deleted `ValueError`; otherwise
the UPDATE sets the flag and the transaction commits. -/
def delete_meal (s : Store) (id : Nat) : List SqlStmt × Except KitchenError Store :=
  match findById s id with
  | none => ([.selectDeleted id], .error (.notFound id))
  | some r =>
    if r.deleted then ([.selectDeleted id], .error (.alreadyDeleted id))
    else ([.selectDeleted id, .updateDeleted id, .commit],
          .ok (updateWhere id setDeleted s))

/-- Source `update_meal_stats(meal_id, result)`: the same deleted-flag lookup as
`delete_meal` (not-found / has-been-deleted `ValueError`s), then the stats
UPDATE runs only when `result == "wins"`; every other result string —
including "win" and "loss" — raises the invalid-result `ValueError` before
any UPDATE or commit. -/
def update_meal_stats (s : Store) (id : Nat) (result : String) :
    List SqlStmt × Except KitchenError Store :=
  match findById s id with
  | none => ([.selectDeleted id], .error (.notFound id))
  | some r =>
    if r.deleted then ([.selectDeleted id], .error (.alreadyDeleted id))
    else if result = "wins" then
      ([.selectDeleted id, .updateStats id, .commit],
       .ok (updateWhere id bumpStats s))
    else ([.selectDeleted id], .error (.invalidResult result))

/-- Source `get_meal_by_id(meal_id)`: fetch the row; absent → not-found
`ValueError`; deleted flag set → has-been-deleted `ValueError`; otherwise
the row is turned into a `Meal` (running `Meal.__post_init__`). -/
def get_meal_by_id (s : Store) (id : Nat) : Except KitchenError Meal :=
  match findById s id with
  | none => .error (.notFound id)
  | some r =>
    if r.deleted then .error (.alreadyDeleted id)
    else mkMeal r.id r.meal r.cuisine r.price r.difficulty

/-- Source `get_meal_by_name(meal_name)`: same three-way outcome as
`get_meal_by_id`, keyed on the meal name. -/
def get_meal_by_name (s : Store) (name : String) : Except KitchenError Meal :=
  match findByName s name with
  | none => .error (.notFoundName name)
  | some r =>
    if r.deleted then .error (.alreadyDeletedName name)
    else mkMeal r.id r.meal r.cuisine r.price r.difficulty

/-- One element of the dict built per fetched leaderboard row: the selected
columns plus the derived `win_pct = wins * 1.0 / battles`. -/
structure LBRow where
  id : Nat
  meal : String
  cuisine : String
  price : ℚ
  difficulty : String
  battles : Nat
  wins : Nat
  win_pct : ℚ
deriving Repr, DecidableEq

/-- The WHERE clause of the leaderboard query:
`deleted = false AND battles > 0`. -/
def qualifies (r : MealRow) : Bool :=
  !r.deleted && decide (0 < r.battles)

/-- The SELECT list of the leaderboard query, including the derived
`(wins * 1.0 / battles) AS win_pct`. -/
def toLBRow (r : MealRow) : LBRow :=
  ⟨r.id, r.meal, r.cuisine, r.price, r.difficulty, r.battles, r.wins,
   (r.wins : ℚ) / (r.battles : ℚ)⟩

/-- Insertion step of a descending sort by `key` (models `ORDER BY key DESC`;
SQLite fixes no order among equal keys, this model keeps one). -/
def insertDescBy (key : LBRow → ℚ) (r : LBRow) : List LBRow → List LBRow
  | [] => [r]
  | x :: xs => if key x < key r then r :: x :: xs else x :: insertDescBy key r xs

/-- Clause `ORDER BY key DESC` over a list of rows. -/
def sortDescBy (key : LBRow → ℚ) (l : List LBRow) : List LBRow :=
  l.foldr (insertDescBy key) []

/-- The leaderboard query: filter, project, order descending by `key`. -/
def leaderboardRows (s : Store) (key : LBRow → ℚ) : List LBRow :=
  sortDescBy key ((s.filter qualifies).map toLBRow)

/-- Source `get_leaderboard(sort_by)`: the if/elif chain appends
`ORDER BY win_pct DESC` / `ORDER BY wins DESC` / `ORDER BY price DESC` for
the three accepted keys and raises the invalid-sort_by `ValueError` for any
other value.  Zero fetched rows yield the empty list.  Each fetched row is
wrapped in a ONE-ELEMENT list (`meal = [{...}]; leaderboard.append(meal)`),
so the return value is a list of singleton lists of row dicts. -/
def get_leaderboard (s : Store) (sort_by : String) :
    Except KitchenError (List (List LBRow)) :=
  if sort_by = "win_pct" then
    .ok ((leaderboardRows s (·.win_pct)).map (fun r => [r]))
  else if sort_by = "wins" then
    .ok ((leaderboardRows s (fun r => (r.wins : ℚ))).map (fun r => [r]))
  else if sort_by = "price" then
    .ok ((leaderboardRows s (·.price)).map (fun r => [r]))
  else .error (.invalidSortBy sort_by)

/-- Source `get_leaderboard()` with its default argument `sort_by = "wins"`. -/
def get_leaderboard_default (s : Store) : Except KitchenError (List (List LBRow)) :=
  get_leaderboard s "wins"

/-- Subscripting a Python list with a string key, as in
`meal_data["id"]` where `meal_data` is a leaderboard entry (a one-element
list): always raises `TypeError: list indices must be integers`. -/
def listSubscriptByString (_xs : List LBRow) (_key : String) :
    Except KitchenError LBRow :=
  .error .typeError

/-- Source `get_random_meal()`: fetches the "wins" leaderboard; raises the
empty-database `ValueError` when it is empty; otherwise asks the Random
Source for `random_index = get_random(n)` in `[1, n]` (modelled by the
`draw` argument) and reads `leaderboard[random_index - 1]`.  That entry is a
one-element list, so the subsequent `meal_data["id"]` raises `TypeError`;
even were the entry a dict, the `Meal(...)` call passes the keyword
arguments `battles`, `wins` and `win_pct`, which the five-field dataclass
rejects with `TypeError` as well — hence the final branch. -/
def get_random_meal (s : Store) (draw : Nat) : Except KitchenError Meal :=
  match get_leaderboard s "wins" with
  | .error e => .error e
  | .ok [] => .error .emptyDatabase
  | .ok lb =>
    match listSubscriptByString (lb.getD (draw - 1) []) "id" with
    | .error e => .error e
    | .ok _ => .error .typeError

/-- Semantics of one executed statement against the store (SELECTs and the
commit do not change it). -/
def execStmt (s : Store) : SqlStmt → Store
  | .selectDeleted _ => s
  | .insertMeal m c q d => s ++ [⟨nextId s, m, c, q, d, false, 0, 0⟩]
  | .updateDeleted id => updateWhere id setDeleted s
  | .updateStats id => updateWhere id bumpStats s
  | .commit => s

/-- The store after executing a recorded trace of statements. -/
def execTrace (s : Store) (ts : List SqlStmt) : Store :=
  ts.foldl execStmt s

/-! ### Battle Engine

`battle_model.py` is absent from the sources; only its test suite
(`tests/test_battle_model.py`) is.  The definitions below are modelled from
the specification (§4.3), pinned wherever the tests assert concrete values:
the tests fix `get_battle_score` on four meals (−3, 1199, 6 and 16) and fix
the winner of a battle with scores 6 and 16 at random draw 0.05. -/

/-- Modelled from the spec: the difficulty modifier of the Battle Engine
score.  The repository tests force HIGH → 1, MED → 2, LOW → 3 (a HIGH meal
with price 100 and a 12-character cuisine scores 1199, a LOW meal with
price 0 and empty cuisine scores −3). -/
def difficulty_modifier (d : String) : ℚ :=
  if d = "HIGH" then 1 else if d = "MED" then 2 else 3

/-- Modelled from the spec: `BattleModel.get_battle_score(meal)`, the pure
deterministic score of one meal.  The four values asserted by the
repository tests force the formula
`score = price * len(cuisine) - difficulty_modifier(difficulty)`. -/
def get_battle_score (m : Meal) : ℚ :=
  m.price * (m.cuisine.length : ℚ) - difficulty_modifier m.difficulty

/-- The score formula the specification text asserts instead:
`price × multiplier − len(cuisine)` with LOW → 1, MED → 2, HIGH → 3.
Declared only to compare against `get_battle_score`. -/
def claimed_battle_score (m : Meal) : ℚ :=
  m.price * (if m.difficulty = "LOW" then 1 else if m.difficulty = "MED" then 2 else 3)
    - (m.cuisine.length : ℚ)

/-- Modelled from the spec: `prep_combatant` appends to the slot list and
fails with the combatant-list-is-full `ValueError` from the two-combatant
state. -/
def prep_combatant (combatants : List Meal) (m : Meal) :
    Except KitchenError (List Meal) :=
  if 2 ≤ combatants.length then .error .combatantListFull
  else .ok (combatants ++ [m])

/-- Modelled from the spec: `get_combatants` returns the slot list
unchanged. -/
def get_combatants (combatants : List Meal) : List Meal := combatants

/-- Modelled from the spec: `clear_combatants` resets the slot list to
empty regardless of its state. -/
def clear_combatants (_combatants : List Meal) : List Meal := []

/-- Modelled from the spec: the normalized win threshold for the first
combatant, a bounded function of the score delta.  The concrete shape
`|score₁ − score₂| / 100` reproduces the repository test, where scores 6
and 16 with draw 0.05 make the first combatant win (0.05 < 0.1). -/
def battle_threshold (c1 c2 : Meal) : ℚ :=
  |get_battle_score c1 - get_battle_score c2| / 100

/-- The combatant `battle` declares winner for a given random draw. -/
def battle_winner (c1 c2 : Meal) (draw : ℚ) : Meal :=
  if draw < battle_threshold c1 c2 then c1 else c2

/-- The combatant `battle` declares loser for a given random draw. -/
def battle_loser (c1 c2 : Meal) (draw : ℚ) : Meal :=
  if draw < battle_threshold c1 c2 then c2 else c1

/-- Modelled from the spec: `BattleModel.battle()`.  Requires exactly two
prepped combatants and fails with the two-combatants-must-be-prepped
`ValueError` otherwise; computes both scores, compares the random draw to
the threshold, records the outcome through the Catalog Service — one
stat-update call per combatant, "win" for the winner and "loss" for the
loser — and returns the winner name.  It does not mutate the slot list, so
the result carries (winner name, recorded stat-update calls, slot list
after the call). -/
def battle (combatants : List Meal) (draw : ℚ) :
    Except KitchenError (String × List (Nat × String) × List Meal) :=
  match combatants with
  | [c1, c2] =>
    .ok ((battle_winner c1 c2 draw).meal,
         [((battle_winner c1 c2 draw).id, "win"), ((battle_loser c1 c2 draw).id, "loss")],
         combatants)
  | _ => .error .twoCombatantsRequired

/-! ### Operation sequences over the store -/

/-- One store-mutating Catalog Service call, with arbitrary arguments. -/
inductive Op where
  | create (meal cuisine : String) (price : PyNum) (difficulty : String)
  | delete (id : Nat)
  | updateStats (id : Nat) (result : String)

/-- The store after one call: the new store on success, the unchanged store
when the call raised. -/
def applyOp (s : Store) : Op → Store
  | .create m c p d =>
    match (create_meal s m c p d none).2 with
    | .ok s2 => s2
    | .error _ => s
  | .delete id =>
    match (delete_meal s id).2 with
    | .ok s2 => s2
    | .error _ => s
  | .updateStats id result =>
    match (update_meal_stats s id result).2 with
    | .ok s2 => s2
    | .error _ => s

/-- The store after a sequence of calls. -/
def runOps (s : Store) (ops : List Op) : Store :=
  ops.foldl applyOp s

/-- The battles counter recorded for `id` (0 when no such row). -/
def battlesOf (s : Store) (id : Nat) : Nat :=
  ((findById s id).map (·.battles)).getD 0

/-- The wins counter recorded for `id` (0 when no such row). -/
def winsOf (s : Store) (id : Nat) : Nat :=
  ((findById s id).map (·.wins)).getD 0

/-- Store well-formedness: no row records more wins than battles. -/
def StoreWF (s : Store) : Prop :=
  ∀ r ∈ s, r.wins ≤ r.battles

/-! ### Concrete fixtures

The meals below are the fixtures of `tests/test_battle_model.py`
(`sample_meal1`, `sample_meal2`, the low-score meal of
`test_get_battle_low_score` and the high-score meal of
`test_get_battle_high_score`); the rows are small concrete stores used to
evaluate the kitchen operations. -/

/-- The meal `Meal(5, "Low Score", "", 0, "LOW")` built by
`test_get_battle_low_score`; the test asserts its battle score is −3. -/
def low_score_meal : Meal := ⟨5, "Low Score", "", 0, "LOW"⟩

/-- The meal `Meal(6, "High Score", "High Cuisine", 100, "HIGH")` built by
`test_get_battle_high_score`; the test asserts its battle score is 1199. -/
def high_score_meal : Meal := ⟨6, "High Score", "High Cuisine", 100, "HIGH"⟩

/-- The fixture `Meal(1, "Meal 1", "Cuisine 1", 1, "LOW")` of the battle
tests; `test_battle_sample_meals` asserts its score is 6. -/
def sample_meal1 : Meal := ⟨1, "Meal 1", "Cuisine 1", 1, "LOW"⟩

/-- The fixture `Meal(2, "Meal 2", "Cuisine 2", 2, "MED")` of the battle
tests; `test_battle_sample_meals` asserts its score is 16. -/
def sample_meal2 : Meal := ⟨2, "Meal 2", "Cuisine 2", 2, "MED"⟩

/-- A stored row: meal 1 "Pasta", not deleted, 4 battles, 2 wins. -/
def demoRow : MealRow := ⟨1, "Pasta", "Italian", 10, "MED", false, 4, 2⟩

/-- A one-row store holding `demoRow`. -/
def demoStore : Store := [demoRow]

/-- A stored row qualifying for the leaderboard: 2 battles, 1 win. -/
def rowA : MealRow := ⟨1, "A", "CA", 5, "LOW", false, 2, 1⟩

/-- A stored row qualifying for the leaderboard: 6 battles, 5 wins. -/
def rowB : MealRow := ⟨2, "B", "CB", 7, "HIGH", false, 6, 5⟩

/-- A two-row store for leaderboard evaluation. -/
def lbStore : Store := [rowA, rowB]

/-- A soft-deleted row: meal 3 "Gone", deletion flag set. -/
def rowDel : MealRow := ⟨3, "Gone", "X", 2, "LOW", true, 1, 1⟩

/-- A store holding one live row and one soft-deleted row. -/
def mixedStore : Store := [demoRow, rowDel]

/-! ### Helper lemmas -/

/-- Lemma: `List.find?` only depends on the pointwise behaviour of its predicate. -/
lemma find?_pred_congr {p q : MealRow → Bool} (h : ∀ r, p r = q r) :
    ∀ l : List MealRow, l.find? p = l.find? q := by
  intro l
  induction l with
  | nil => rfl
  | cons a as ih => rw [List.find?_cons, List.find?_cons, h a, ih]

/-- Looking a row up after an id-targeted UPDATE: the found row is the old
one, transformed when its id matches the UPDATE target. -/
lemma findById_updateWhere (g : MealRow → MealRow) (hg : ∀ rr, (g rr).id = rr.id)
    (s : Store) (id target : Nat) :
    findById (updateWhere id g s) target =
      (findById s target).map (fun rr => if rr.id == id then g rr else rr) := by
  unfold findById updateWhere
  rw [List.find?_map]
  congr 1
  apply find?_pred_congr
  intro r
  by_cases h : r.id = id <;> simp [Function.comp, h, hg]

/-- The row an id-targeted UPDATE found is returned transformed afterwards. -/
lemma findById_updateWhere_self (g : MealRow → MealRow)
    (hg : ∀ rr, (g rr).id = rr.id) (s : Store) (id : Nat) (r : MealRow)
    (h : findById s id = some r) :
    findById (updateWhere id g s) id = some (g r) := by
  rw [findById_updateWhere g hg, h]
  have h2 : List.find? (fun rr => rr.id == id) s = some r := h
  have hid := List.find?_some h2
  simp only [beq_iff_eq] at hid
  simp [hid]

/-- In a well-formed store, the wins counter never exceeds the battles
counter of any id. -/
lemma winsOf_le_battlesOf (s : Store) (h : StoreWF s) (id : Nat) :
    winsOf s id ≤ battlesOf s id := by
  unfold winsOf battlesOf
  cases h2 : findById s id with
  | none => simp
  | some r =>
    have hr : r ∈ s := List.mem_of_find?_eq_some h2
    simpa using h r hr

/-- An UPDATE that never decreases the per-row counters never decreases the
per-id counters. -/
lemma battlesOf_updateWhere_le (g : MealRow → MealRow)
    (hg : ∀ rr, (g rr).id = rr.id) (hb : ∀ rr, rr.battles ≤ (g rr).battles)
    (hw : ∀ rr, rr.wins ≤ (g rr).wins) (s : Store) (id t : Nat) :
    battlesOf s t ≤ battlesOf (updateWhere id g s) t
    ∧ winsOf s t ≤ winsOf (updateWhere id g s) t := by
  unfold battlesOf winsOf
  rw [findById_updateWhere g hg]
  cases h : findById s t with
  | none => simp
  | some r =>
    by_cases hid : r.id = id <;> simp [hid, hb r, hw r]

/-- Appending a freshly inserted zero-stat row never decreases the per-id
counters. -/
lemma battlesOf_append_le (s : Store) (row : MealRow)
    (hb : row.battles = 0) (hw : row.wins = 0) (t : Nat) :
    battlesOf s t ≤ battlesOf (s ++ [row]) t
    ∧ winsOf s t ≤ winsOf (s ++ [row]) t := by
  unfold battlesOf winsOf findById
  cases h : List.find? (fun r => r.id == t) s with
  | none => simp
  | some r => simp [List.find?_append, h]

/-- An UPDATE whose per-row transformation preserves `wins ≤ battles`
preserves store well-formedness. -/
lemma storeWF_updateWhere (g : MealRow → MealRow)
    (hwf : ∀ rr, rr.wins ≤ rr.battles → (g rr).wins ≤ (g rr).battles)
    (s : Store) (id : Nat) (h : StoreWF s) : StoreWF (updateWhere id g s) := by
  intro r hr
  rcases List.mem_map.mp hr with ⟨a, ha, rfl⟩
  by_cases hid : a.id = id <;> simp [hid]
  · exact hwf a (h a ha)
  · exact h a ha

/-- Appending a row with `wins ≤ battles` preserves store well-formedness. -/
lemma storeWF_append (s : Store) (row : MealRow) (hrow : row.wins ≤ row.battles)
    (h : StoreWF s) : StoreWF (s ++ [row]) := by
  intro r hr
  rcases List.mem_append.mp hr with h1 | h1
  · exact h r h1
  · simp at h1
    subst h1
    exact hrow

/-- Every Catalog Service call either leaves the store unchanged, inserts a
fresh zero-stat row, sets a deletion flag, or bumps the counters of one id. -/
lemma applyOp_cases (s : Store) (op : Op) :
    applyOp s op = s
    ∨ (∃ m c q d, applyOp s op = s ++ [⟨nextId s, m, c, q, d, false, 0, 0⟩])
    ∨ (∃ id, applyOp s op = updateWhere id setDeleted s)
    ∨ (∃ id, applyOp s op = updateWhere id bumpStats s) := by
  cases op with
  | create m c p d =>
    cases p with
    | nonNumeric => exact Or.inl rfl
    | num q =>
      by_cases h1 : q ≤ 0
      · refine Or.inl ?_
        simp [applyOp, create_meal, h1]
      · by_cases h2 : validDifficulty d
        · by_cases h3 : s.any (fun r => r.meal == m)
          · refine Or.inl ?_
            simp [applyOp, create_meal, h1, h2, h3]
          · refine Or.inr (Or.inl ⟨m, c, q, d, ?_⟩)
            simp [applyOp, create_meal, h1, h2, h3]
        · refine Or.inl ?_
          simp [applyOp, create_meal, h1, h2]
  | delete id =>
    cases h : findById s id with
    | none =>
      refine Or.inl ?_
      simp [applyOp, delete_meal, h]
    | some r =>
      by_cases hd : r.deleted
      · refine Or.inl ?_
        simp [applyOp, delete_meal, h, hd]
      · refine Or.inr (Or.inr (Or.inl ⟨id, ?_⟩))
        simp [applyOp, delete_meal, h, hd]
  | updateStats id result =>
    cases h : findById s id with
    | none =>
      refine Or.inl ?_
      simp [applyOp, update_meal_stats, h]
    | some r =>
      by_cases hd : r.deleted
      · refine Or.inl ?_
        simp [applyOp, update_meal_stats, h, hd]
      · by_cases hres : result = "wins"
        · refine Or.inr (Or.inr (Or.inr ⟨id, ?_⟩))
          simp [applyOp, update_meal_stats, h, hd, hres]
        · refine Or.inl ?_
          simp [applyOp, update_meal_stats, h, hd, hres]

/-- No Catalog Service call decreases any battles or wins counter. -/
lemma applyOp_mono (s : Store) (op : Op) (t : Nat) :
    battlesOf s t ≤ battlesOf (applyOp s op) t
    ∧ winsOf s t ≤ winsOf (applyOp s op) t := by
  rcases applyOp_cases s op with h | ⟨m, c, q, d, h⟩ | ⟨id, h⟩ | ⟨id, h⟩ <;> rw [h]
  · exact ⟨le_refl _, le_refl _⟩
  · exact battlesOf_append_le s _ rfl rfl t
  · exact battlesOf_updateWhere_le setDeleted (fun _ => rfl) (fun _ => le_refl _)
      (fun _ => le_refl _) s id t
  · exact battlesOf_updateWhere_le bumpStats (fun _ => rfl)
      (fun rr => Nat.le_succ _) (fun rr => Nat.le_succ _) s id t

/-- Every Catalog Service call preserves store well-formedness. -/
lemma applyOp_wf (s : Store) (op : Op) (h : StoreWF s) : StoreWF (applyOp s op) := by
  rcases applyOp_cases s op with heq | ⟨m, c, q, d, heq⟩ | ⟨id, heq⟩ | ⟨id, heq⟩ <;>
    rw [heq]
  · exact h
  · exact storeWF_append s _ (le_refl _) h
  · exact storeWF_updateWhere setDeleted (fun rr hr => hr) s id h
  · exact storeWF_updateWhere bumpStats (fun rr hr => Nat.succ_le_succ hr) s id h

/-- A stat update only succeeds on a live row with result "wins", and then
the store is the counter-bumping UPDATE of the old one. -/
lemma update_meal_stats_ok (s : Store) (id : Nat) (result : String) (s2 : Store)
    (h : (update_meal_stats s id result).2 = .ok s2) :
    ∃ r, findById s id = some r ∧ r.deleted = false ∧ result = "wins"
      ∧ s2 = updateWhere id bumpStats s := by
  unfold update_meal_stats at h
  cases hf : findById s id with
  | none =>
    rw [hf] at h
    simp at h
  | some r =>
    rw [hf] at h
    by_cases hd : r.deleted
    · simp [hd] at h
    · by_cases hres : result = "wins"
      · simp [hd, hres] at h
        exact ⟨r, rfl, by simpa using hd, hres, h.symm⟩
      · simp [hd, hres] at h

/-- Lemma: `delete_meal` either stops after the flag SELECT or runs the
flag-setting UPDATE and the commit, succeeding. -/
lemma delete_meal_trace (s : Store) (id : Nat) :
    (delete_meal s id).1 = [.selectDeleted id]
    ∨ ((delete_meal s id).1 = [.selectDeleted id, .updateDeleted id, .commit]
        ∧ (delete_meal s id).2 = .ok (updateWhere id setDeleted s)) := by
  unfold delete_meal
  cases findById s id with
  | none => exact Or.inl rfl
  | some r =>
    by_cases hd : r.deleted
    · exact Or.inl (by simp [hd])
    · exact Or.inr (by simp [hd])

/-- Lemma: `update_meal_stats` either stops after the flag SELECT or runs the
stat UPDATE and the commit, succeeding. -/
lemma update_meal_stats_trace (s : Store) (id : Nat) (result : String) :
    (update_meal_stats s id result).1 = [.selectDeleted id]
    ∨ ((update_meal_stats s id result).1 = [.selectDeleted id, .updateStats id, .commit]
        ∧ (update_meal_stats s id result).2 = .ok (updateWhere id bumpStats s)) := by
  unfold update_meal_stats
  cases findById s id with
  | none => exact Or.inl rfl
  | some r =>
    by_cases hd : r.deleted
    · exact Or.inl (by simp [hd])
    · by_cases hres : result = "wins"
      · exact Or.inr (by simp [hd, hres])
      · exact Or.inl (by simp [hd, hres])

/-- Score of the first battle-test fixture, as the repository test asserts. -/
lemma get_battle_score_sample1 : get_battle_score sample_meal1 = 6 := by
  norm_num [get_battle_score, sample_meal1,
    show difficulty_modifier "LOW" = 3 from rfl,
    show ("Cuisine 1" : String).length = 9 from rfl]

/-- Score of the second battle-test fixture, as the repository test asserts. -/
lemma get_battle_score_sample2 : get_battle_score sample_meal2 = 16 := by
  norm_num [get_battle_score, sample_meal2,
    show difficulty_modifier "MED" = 2 from rfl,
    show ("Cuisine 2" : String).length = 9 from rfl]

/-- Score of the low-score test meal, as the repository test asserts. -/
lemma get_battle_score_low : get_battle_score low_score_meal = -3 := by
  norm_num [get_battle_score, low_score_meal,
    show difficulty_modifier "LOW" = 3 from rfl]

/-- Score of the high-score test meal, as the repository test asserts. -/
lemma get_battle_score_high : get_battle_score high_score_meal = 1199 := by
  norm_num [get_battle_score, high_score_meal,
    show difficulty_modifier "HIGH" = 1 from rfl,
    show ("High Cuisine" : String).length = 12 from rfl]

/-- The win threshold of the two battle-test fixtures is 1/10. -/
lemma battle_threshold_samples :
    battle_threshold sample_meal1 sample_meal2 = 1 / 10 := by
  rw [battle_threshold, get_battle_score_sample1, get_battle_score_sample2]
  rw [show |(6 : ℚ) - 16| = 10 from by rw [abs_of_nonpos] <;> norm_num]
  norm_num

/-- At draw 0.05 the first fixture wins, as in `test_battle_sample_meals`. -/
lemma battle_winner_samples :
    battle_winner sample_meal1 sample_meal2 (1 / 20) = sample_meal1 := by
  rw [battle_winner, battle_threshold_samples]
  norm_num

/-- At draw 0.05 the second fixture loses. -/
lemma battle_loser_samples :
    battle_loser sample_meal1 sample_meal2 (1 / 20) = sample_meal2 := by
  rw [battle_loser, battle_threshold_samples]
  norm_num

/-! ### Claims -/

/-- C1: the claim says `update_meal_stats(id, "win")` increments battles and
wins and `update_meal_stats(id, "loss")` increments only battles.  On a
store holding the live meal 1, the code raises the invalid-result
`ValueError` for both "win" and "loss" — despite its own error message
naming "loss" as expected — and only the string "wins" triggers an update,
which increments both counters. -/
theorem update_meal_stats_rejects_win_and_loss :
    (update_meal_stats demoStore 1 "win").2 = .error (.invalidResult "win")
    ∧ (update_meal_stats demoStore 1 "loss").2 = .error (.invalidResult "loss")
    ∧ (update_meal_stats demoStore 1 "wins").2 =
        .ok [⟨1, "Pasta", "Italian", 10, "MED", false, 5, 3⟩] :=
  ⟨rfl, rfl, rfl⟩

/-- C2 counterexample: the score formula asserted by the claim
(price × multiplier(LOW→1, MED→2, HIGH→3) − len(cuisine)) gives 0 and 288 on
the two test meals, while the repository tests assert `get_battle_score`
returns −3 and 1199 on exactly those meals — so the claim is false of the
program the tests pin down. -/
theorem claimed_score_contradicts_repo_tests :
    claimed_battle_score low_score_meal = 0
    ∧ claimed_battle_score high_score_meal = 288
    ∧ get_battle_score low_score_meal = -3
    ∧ get_battle_score high_score_meal = 1199
    ∧ claimed_battle_score low_score_meal ≠ get_battle_score low_score_meal := by
  have h0 : claimed_battle_score low_score_meal = 0 := by
    norm_num [claimed_battle_score, low_score_meal,
      show (("LOW" : String) = "LOW") = True from by simp]
  have h288 : claimed_battle_score high_score_meal = 288 := by
    norm_num [claimed_battle_score, high_score_meal,
      show (("HIGH" : String) = "LOW") = False from by simp,
      show (("HIGH" : String) = "MED") = False from by simp,
      show ("High Cuisine" : String).length = 12 from rfl]
  refine ⟨h0, h288, get_battle_score_low, get_battle_score_high, ?_⟩
  rw [h0, get_battle_score_low]
  norm_num

/-- C2 amended: `get_battle_score` is a pure function of the meal equal to
price × len(cuisine) − difficulty_modifier(difficulty) with HIGH → 1,
MED → 2, LOW → 3; it reproduces every battle-score value the repository
tests assert (−3, 1199, 6 and 16). -/
theorem get_battle_score_matches_repo_tests :
    get_battle_score low_score_meal = -3
    ∧ get_battle_score high_score_meal = 1199
    ∧ get_battle_score sample_meal1 = 6
    ∧ get_battle_score sample_meal2 = 16
    ∧ ∀ m : Meal, get_battle_score m =
        m.price * (m.cuisine.length : ℚ) - difficulty_modifier m.difficulty :=
  ⟨get_battle_score_low, get_battle_score_high, get_battle_score_sample1,
   get_battle_score_sample2, fun _ => rfl⟩

/-- C3: on a store with two qualifying rows (1 and 5 wins), the "wins"
leaderboard is correctly ordered descending and an unknown sort key raises
the invalid-parameter `ValueError`, and no qualifying rows give the
structurally empty list — but each returned element is a SINGLETON LIST
wrapping the row dict, not the row dict itself, so the result is not a
sequence of records. -/
theorem get_leaderboard_wraps_rows_in_singleton_lists :
    get_leaderboard lbStore "wins" = .ok [[toLBRow rowB], [toLBRow rowA]]
    ∧ get_leaderboard lbStore "bogus" = .error (.invalidSortBy "bogus")
    ∧ get_leaderboard ([] : Store) "wins" = .ok []
    ∧ get_leaderboard_default lbStore = get_leaderboard lbStore "wins" :=
  ⟨rfl, rfl, rfl, rfl⟩

/-- C4: on a store whose "wins" leaderboard holds two entries, every draw
makes `get_random_meal` raise `TypeError` instead of returning the meal at
the drawn position — the leaderboard entry it subscripts with "id" is a
one-element list, not a record — while the empty store raises the
empty-database `ValueError` as claimed. -/
theorem get_random_meal_raises_type_error :
    get_random_meal lbStore 1 = .error .typeError
    ∧ get_random_meal lbStore 2 = .error .typeError
    ∧ get_random_meal ([] : Store) 1 = .error .emptyDatabase :=
  ⟨rfl, rfl, rfl⟩

/-- C5 counterexample: the claim says construction fails for every price
that is not > 0, in particular price = 0; but `Meal.__post_init__` only
rejects `price < 0`, so the zero-priced meal of `test_get_battle_low_score`
is constructed successfully. -/
theorem mkMeal_accepts_zero_price :
    mkMeal 5 "Low Score" "" 0 "LOW" = .ok low_score_meal :=
  rfl

/-- C5 amended: constructing a `Meal` fails with the invalid-value error
exactly for negative prices, fails with the invalid-difficulty error
exactly for a nonnegative price with a difficulty outside {LOW, MED, HIGH},
and succeeds in all other cases (in particular price = 0 is accepted). -/
theorem mkMeal_validation_characterization (id : Nat) (meal cuisine : String)
    (price : ℚ) (difficulty : String) :
    (mkMeal id meal cuisine price difficulty = .error .invalidPrice ↔ price < 0)
    ∧ (mkMeal id meal cuisine price difficulty = .error .invalidDifficulty ↔
        0 ≤ price ∧ validDifficulty difficulty = false)
    ∧ (mkMeal id meal cuisine price difficulty =
        .ok ⟨id, meal, cuisine, price, difficulty⟩ ↔
        0 ≤ price ∧ validDifficulty difficulty = true) := by
  unfold mkMeal
  rcases lt_or_le price 0 with h | h
  · simp [if_pos h, h, not_le.mpr h]
  · rw [if_neg (not_lt.mpr h)]
    cases hd : validDifficulty difficulty <;> simp [hd, h]

/-- C6: `battle()` fails with the two-combatants-must-be-prepped error
whenever the slot list holds fewer than two meals; with exactly two prepped
combatants it succeeds, the returned winner name is the name of one of the two prepped
meals, exactly one stat-update call is recorded per combatant —
"win" for the winner and "loss" for the loser — and the combatant list is
returned unchanged. -/
theorem battle_requires_two_and_reports_winner (c1 c2 : Meal) (cs : List Meal)
    (draw : ℚ) :
    (cs.length < 2 → battle cs draw = .error .twoCombatantsRequired)
    ∧ (cs = [c1, c2] →
        battle cs draw =
          .ok ((battle_winner c1 c2 draw).meal,
               [((battle_winner c1 c2 draw).id, "win"),
                ((battle_loser c1 c2 draw).id, "loss")], cs)
        ∧ ((battle_winner c1 c2 draw).meal = c1.meal
            ∨ (battle_winner c1 c2 draw).meal = c2.meal)
        ∧ ((battle_winner c1 c2 draw = c1 ∧ battle_loser c1 c2 draw = c2)
            ∨ (battle_winner c1 c2 draw = c2 ∧ battle_loser c1 c2 draw = c1))) := by
  constructor
  · intro h
    match cs, h with
    | [], _ => rfl
    | [a], _ => rfl
    | a :: b :: t, h =>
      simp only [List.length_cons] at h
      omega
  · rintro rfl
    refine ⟨rfl, ?_, ?_⟩ <;>
      by_cases hlt : draw < battle_threshold c1 c2 <;>
        simp [battle_winner, battle_loser, hlt]

/-- C6 witness: with one prepped fixture the battle fails; with the two
test fixtures prepped and draw 0.05 it returns the winner "Meal 1", records
a "win" for meal 1 and a "loss" for meal 2, and leaves the combatant list
as it was — matching `test_battle_sample_meals`. -/
theorem battle_requires_two_and_reports_winner_witness :
    battle [sample_meal1] (1 / 20) = .error .twoCombatantsRequired
    ∧ battle [sample_meal1, sample_meal2] (1 / 20) =
        .ok ("Meal 1", [(1, "win"), (2, "loss")], [sample_meal1, sample_meal2]) := by
  constructor
  · exact (battle_requires_two_and_reports_winner sample_meal1 sample_meal2
      [sample_meal1] (1 / 20)).1 (by norm_num)
  · have h := (battle_requires_two_and_reports_winner sample_meal1 sample_meal2
      [sample_meal1, sample_meal2] (1 / 20)).2 rfl
    rw [h.1, battle_winner_samples, battle_loser_samples]
    rfl

/-- C7: `create_meal` rejects a non-numeric price, a non-positive price and
an invalid difficulty with the descriptive `ValueError`s, and it does so
with an empty statement trace — before any storage access — whatever the
store state or injected storage fault; once validation passes, an
`IntegrityError` from the UNIQUE name constraint (or injected) maps to the
duplicate-name error, any other storage failure is propagated unchanged,
and otherwise the row is inserted with zeroed stats. -/
theorem create_meal_validates_before_storage (s : Store) (m c : String) (q : ℚ)
    (d : String) (fault : Option SqliteError) (msg : String) :
    (create_meal s m c .nonNumeric d fault = ([], .error .invalidPrice))
    ∧ (q ≤ 0 → create_meal s m c (.num q) d fault = ([], .error .invalidPrice))
    ∧ (0 < q → validDifficulty d = false →
        create_meal s m c (.num q) d fault = ([], .error .invalidDifficulty))
    ∧ (0 < q → validDifficulty d = true →
        create_meal s m c (.num q) d (some (.integrityError msg)) =
          ([.insertMeal m c q d], .error (.duplicateName m)))
    ∧ (0 < q → validDifficulty d = true →
        create_meal s m c (.num q) d (some (.operationalError msg)) =
          ([.insertMeal m c q d], .error (.sqlite (.operationalError msg))))
    ∧ (0 < q → validDifficulty d = true → s.any (fun r => r.meal == m) = true →
        create_meal s m c (.num q) d none =
          ([.insertMeal m c q d], .error (.duplicateName m)))
    ∧ (0 < q → validDifficulty d = true → s.any (fun r => r.meal == m) = false →
        create_meal s m c (.num q) d none =
          ([.insertMeal m c q d, .commit],
           .ok (s ++ [⟨nextId s, m, c, q, d, false, 0, 0⟩]))) := by
  refine ⟨rfl, ?_, ?_, ?_, ?_, ?_, ?_⟩
  · intro h
    simp [create_meal, h]
  · intro h hd
    simp [create_meal, not_le.mpr h, hd]
  · intro h hd
    simp [create_meal, not_le.mpr h, hd]
  · intro h hd
    simp [create_meal, not_le.mpr h, hd]
  · intro h hd hdup
    simp [create_meal, not_le.mpr h, hd, hdup]
  · intro h hd hdup
    simp [create_meal, not_le.mpr h, hd, hdup]

/-- C7 witness: on the concrete one-row store, a negative price and a bad
difficulty are rejected with an empty trace; re-creating "Pasta" hits the
duplicate-name error; an injected operational error is propagated
unchanged; and a fresh valid meal is inserted with zeroed stats. -/
theorem create_meal_validates_before_storage_witness :
    create_meal demoStore "X" "C" (.num (-1)) "LOW" none = ([], .error .invalidPrice)
    ∧ create_meal demoStore "X" "C" (.num 5) "BAD" none = ([], .error .invalidDifficulty)
    ∧ create_meal demoStore "Pasta" "C" (.num 5) "LOW" none =
        ([.insertMeal "Pasta" "C" 5 "LOW"], .error (.duplicateName "Pasta"))
    ∧ create_meal demoStore "X" "C" (.num 5) "LOW" (some (.operationalError "disk")) =
        ([.insertMeal "X" "C" 5 "LOW"], .error (.sqlite (.operationalError "disk")))
    ∧ create_meal demoStore "X" "C" (.num 5) "LOW" none =
        ([.insertMeal "X" "C" 5 "LOW", .commit],
         .ok (demoStore ++ [⟨nextId demoStore, "X", "C", 5, "LOW", false, 0, 0⟩])) := by
  refine ⟨?_, ?_, ?_, ?_, ?_⟩
  · exact (create_meal_validates_before_storage demoStore "X" "C" (-1) "LOW"
      none "").2.1 (by norm_num)
  · exact (create_meal_validates_before_storage demoStore "X" "C" 5 "BAD"
      none "").2.2.1 (by norm_num) rfl
  · exact (create_meal_validates_before_storage demoStore "Pasta" "C" 5 "LOW"
      none "").2.2.2.2.2.1 (by norm_num) rfl rfl
  · exact (create_meal_validates_before_storage demoStore "X" "C" 5 "LOW"
      none "disk").2.2.2.2.1 (by norm_num) rfl
  · exact (create_meal_validates_before_storage demoStore "X" "C" 5 "LOW"
      none "").2.2.2.2.2.2 (by norm_num) rfl rfl

/-- C8: soft delete and the two lookups distinguish three cases — a missing
row fails with the not-found error, an existing row whose flag is set fails
with the distinct already-deleted / has-been-deleted error and is never
returned as a usable record, and otherwise `delete_meal` sets the deletion
flag while `get_meal_by_id` / `get_meal_by_name` return the record. -/
theorem delete_and_lookup_three_way (s : Store) (id : Nat) (name : String)
    (r : MealRow) :
    (findById s id = none →
      (delete_meal s id).2 = .error (.notFound id)
      ∧ get_meal_by_id s id = .error (.notFound id))
    ∧ (findById s id = some r → r.deleted = true →
      (delete_meal s id).2 = .error (.alreadyDeleted id)
      ∧ get_meal_by_id s id = .error (.alreadyDeleted id))
    ∧ (findById s id = some r → r.deleted = false →
      (delete_meal s id).2 = .ok (updateWhere id setDeleted s)
      ∧ findById (updateWhere id setDeleted s) id = some (setDeleted r)
      ∧ (setDeleted r).deleted = true
      ∧ (0 ≤ r.price → validDifficulty r.difficulty = true →
          get_meal_by_id s id = .ok ⟨r.id, r.meal, r.cuisine, r.price, r.difficulty⟩))
    ∧ (findByName s name = none →
        get_meal_by_name s name = .error (.notFoundName name))
    ∧ (findByName s name = some r → r.deleted = true →
        get_meal_by_name s name = .error (.alreadyDeletedName name))
    ∧ (findByName s name = some r → r.deleted = false → 0 ≤ r.price →
        validDifficulty r.difficulty = true →
        get_meal_by_name s name = .ok ⟨r.id, r.meal, r.cuisine, r.price, r.difficulty⟩)
    ∧ KitchenError.notFound id ≠ KitchenError.alreadyDeleted id := by
  refine ⟨?_, ?_, ?_, ?_, ?_, ?_, by simp⟩
  · intro h
    exact ⟨by simp [delete_meal, h], by simp [get_meal_by_id, h]⟩
  · intro h hd
    exact ⟨by simp [delete_meal, h, hd], by simp [get_meal_by_id, h, hd]⟩
  · intro h hd
    refine ⟨by simp [delete_meal, h, hd],
      findById_updateWhere_self setDeleted (fun _ => rfl) s id r h, rfl, ?_⟩
    intro hp hv
    simp [get_meal_by_id, h, hd, mkMeal, not_lt.mpr hp, hv]
  · intro h
    simp [get_meal_by_name, h]
  · intro h hd
    simp [get_meal_by_name, h, hd]
  · intro h hd hp hv
    simp [get_meal_by_name, h, hd, mkMeal, not_lt.mpr hp, hv]

/-- C8 witness: on the mixed store, deleting id 99 hits not-found, id 3 hits
already-deleted (also for lookup), and the live meal 1 is deleted / looked
up successfully by id and by name; an unknown name hits not-found. -/
theorem delete_and_lookup_three_way_witness :
    (delete_meal mixedStore 99).2 = .error (.notFound 99)
    ∧ (delete_meal mixedStore 3).2 = .error (.alreadyDeleted 3)
    ∧ get_meal_by_id mixedStore 3 = .error (.alreadyDeleted 3)
    ∧ (delete_meal mixedStore 1).2 = .ok (updateWhere 1 setDeleted mixedStore)
    ∧ get_meal_by_id mixedStore 1 = .ok ⟨1, "Pasta", "Italian", 10, "MED"⟩
    ∧ get_meal_by_name mixedStore "Pasta" = .ok ⟨1, "Pasta", "Italian", 10, "MED"⟩
    ∧ get_meal_by_name mixedStore "Nope" = .error (.notFoundName "Nope") := by
  refine ⟨?_, ?_, ?_, ?_, ?_, ?_, ?_⟩
  · exact ((delete_and_lookup_three_way mixedStore 99 "x" demoRow).1 rfl).1
  · exact (((delete_and_lookup_three_way mixedStore 3 "x" rowDel).2.1) rfl rfl).1
  · exact (((delete_and_lookup_three_way mixedStore 3 "x" rowDel).2.1) rfl rfl).2
  · exact (((delete_and_lookup_three_way mixedStore 1 "x" demoRow).2.2.1) rfl rfl).1
  · exact (((delete_and_lookup_three_way mixedStore 1 "x" demoRow).2.2.1) rfl rfl).2.2.2
      (by norm_num [demoRow]) rfl
  · exact ((delete_and_lookup_three_way mixedStore 1 "Pasta" demoRow).2.2.2.2.2.1) rfl rfl
      (by norm_num [demoRow]) rfl
  · exact ((delete_and_lookup_three_way mixedStore 1 "Nope" demoRow).2.2.2.1) rfl

/-- C9: across every sequence of Catalog Service calls on a well-formed
store, the battles counter of each id only increases, its wins counter only
increases, and wins never exceeds battles; moreover a single successful
stat update increments both counters of the updated id by exactly 1. -/
theorem stats_counters_monotone (s : Store) (ops : List Op) (hwf : StoreWF s) :
    StoreWF (runOps s ops)
    ∧ (∀ id, battlesOf s id ≤ battlesOf (runOps s ops) id
        ∧ winsOf s id ≤ winsOf (runOps s ops) id
        ∧ winsOf (runOps s ops) id ≤ battlesOf (runOps s ops) id)
    ∧ (∀ id result s2, (update_meal_stats s id result).2 = .ok s2 →
        battlesOf s2 id = battlesOf s id + 1 ∧ winsOf s2 id = winsOf s id + 1) := by
  have main : ∀ (l : List Op) (t : Store), StoreWF t →
      StoreWF (runOps t l) ∧
      ∀ id, battlesOf t id ≤ battlesOf (runOps t l) id
        ∧ winsOf t id ≤ winsOf (runOps t l) id := by
    intro l
    induction l with
    | nil =>
      intro t h
      exact ⟨h, fun id => ⟨le_refl _, le_refl _⟩⟩
    | cons op rest ih =>
      intro t h
      have hstep := applyOp_wf t op h
      have hrec := ih (applyOp t op) hstep
      have hrun : runOps t (op :: rest) = runOps (applyOp t op) rest := rfl
      rw [hrun]
      refine ⟨hrec.1, fun id => ?_⟩
      have h1 := applyOp_mono t op id
      have h2 := hrec.2 id
      exact ⟨le_trans h1.1 h2.1, le_trans h1.2 h2.2⟩
  have hm := main ops s hwf
  refine ⟨hm.1, fun id => ⟨(hm.2 id).1, (hm.2 id).2,
    winsOf_le_battlesOf _ hm.1 id⟩, ?_⟩
  intro id result s2 hok
  rcases update_meal_stats_ok s id result s2 hok with ⟨r, hf, hdel, hres, rfl⟩
  have hfind := findById_updateWhere_self bumpStats (fun _ => rfl) s id r hf
  constructor
  · simp [battlesOf, hfind, hf, bumpStats]
  · simp [winsOf, hfind, hf, bumpStats]

/-- C9 witness: on the concrete one-row store, running a successful stat
update followed by a delete keeps the store well-formed and the counters of
meal 1 monotone, and the successful update bumps battles by exactly 1. -/
theorem stats_counters_monotone_witness :
    StoreWF (runOps demoStore [Op.updateStats 1 "wins", Op.delete 1])
    ∧ battlesOf demoStore 1 ≤
        battlesOf (runOps demoStore [Op.updateStats 1 "wins", Op.delete 1]) 1
    ∧ winsOf (runOps demoStore [Op.updateStats 1 "wins", Op.delete 1]) 1 ≤
        battlesOf (runOps demoStore [Op.updateStats 1 "wins", Op.delete 1]) 1
    ∧ battlesOf (updateWhere 1 bumpStats demoStore) 1 = battlesOf demoStore 1 + 1 := by
  have hwf : StoreWF demoStore := by
    intro r hr
    simp [demoStore] at hr
    subst hr
    decide
  have h := stats_counters_monotone demoStore [Op.updateStats 1 "wins", Op.delete 1] hwf
  exact ⟨h.1, (h.2.1 1).1, (h.2.1 1).2.2,
    (h.2.2 1 "wins" (updateWhere 1 bumpStats demoStore) rfl).1⟩

/-- C10: whenever `delete_meal` or `update_meal_stats` raises a
`ValueError`, the recorded statement trace is exactly the single deleted-flag
SELECT — no UPDATE was executed and no commit issued — and replaying the
trace leaves the store completely unchanged. -/
theorem value_errors_leave_store_unchanged (s : Store) (id : Nat) (result : String)
    (e : KitchenError) :
    ((delete_meal s id).2 = .error e →
      (delete_meal s id).1 = [.selectDeleted id]
      ∧ execTrace s (delete_meal s id).1 = s)
    ∧ ((update_meal_stats s id result).2 = .error e →
      (update_meal_stats s id result).1 = [.selectDeleted id]
      ∧ execTrace s (update_meal_stats s id result).1 = s) := by
  constructor
  · intro h
    rcases delete_meal_trace s id with htr | ⟨htr, hok⟩
    · exact ⟨htr, by rw [htr]; rfl⟩
    · rw [hok] at h
      simp at h
  · intro h
    rcases update_meal_stats_trace s id result with htr | ⟨htr, hok⟩
    · exact ⟨htr, by rw [htr]; rfl⟩
    · rw [hok] at h
      simp at h

/-- C10 witness: the failing delete and stat update on the absent id 99
execute only the flag SELECT and leave the concrete store unchanged. -/
theorem value_errors_leave_store_unchanged_witness :
    (delete_meal demoStore 99).1 = [.selectDeleted 99]
    ∧ execTrace demoStore (delete_meal demoStore 99).1 = demoStore
    ∧ (update_meal_stats demoStore 99 "loss").1 = [.selectDeleted 99]
    ∧ execTrace demoStore (update_meal_stats demoStore 99 "loss").1 = demoStore := by
  have h := value_errors_leave_store_unchanged demoStore 99 "loss" (.notFound 99)
  have h1 := h.1 rfl
  have h2 := h.2 rfl
  exact ⟨h1.1, h1.2, h2.1, h2.2⟩

end MealMax
